import Mathlib

/-!
Verification of the Lot_Telemetry_Protocol repository: a shallow embedding of
the packet codec, sequence tracker, reorder buffer, heartbeat liveness
monitor (src/server/server.py) and of the sensor-side batch encoder and
ACK retry controller (src/sensor/sensor_base.py, src/sensor/sensor.py),
together with theorems settling the specification claims.

Bytes are modelled as natural numbers below 256, byte strings as lists;
timestamps fed to the heartbeat monitor are rationals (wall-clock seconds);
fallible operations (struct.pack range errors, uncaught parse errors,
blocking receives) return Option.
-/

namespace Telemetry

/-- Big-endian 2-byte encoding of a 16-bit value, as produced by struct.pack
for format code H. -/
def pack16 (n : Nat) : List Nat := [n / 256 % 256, n % 256]

/-- Big-endian 4-byte encoding of a 32-bit value, as produced by struct.pack
for format code I. -/
def pack32 (n : Nat) : List Nat :=
  [n / 16777216 % 256, n / 65536 % 256, n / 256 % 256, n % 256]

/-- Big-endian decoding of 2 bytes. -/
def unpack16 (a b : Nat) : Nat := a * 256 + b

/-- Big-endian decoding of 4 bytes. -/
def unpack32 (a b c d : Nat) : Nat := ((a * 256 + b) * 256 + c) * 256 + d

/-- Embeds struct.pack of the header format "!B H H I B": range-checks every field
(struct.error becomes none) and concatenates the big-endian encodings. -/
def pack_header (raw_byte device_id seq timestamp flags : Nat) : Option (List Nat) :=
  if raw_byte < 256 ∧ device_id < 65536 ∧ seq < 65536 ∧
      timestamp < 4294967296 ∧ flags < 256 then
    some ([raw_byte] ++ pack16 device_id ++ pack16 seq ++ pack32 timestamp ++ [flags])
  else
    none

/-- Embeds struct.pack of one reading with format "!I" (range-checked). -/
def pack_u32 (v : Nat) : Option (List Nat) :=
  if v < 4294967296 then some (pack32 v) else none

/-- Payload built by packing each reading with "!I" and concatenating, as in
the sensors' send_batch_packet loops. -/
def pack_values : List Nat → Option (List Nat)
  | [] => some []
  | v :: rest =>
    match pack_u32 v, pack_values rest with
    | some b, some bs => some (b ++ bs)
    | _, _ => none

/-- Embeds TelemetryServer.parse_values: split the payload into 4-byte
big-endian unsigned chunks; a trailing chunk shorter than 4 bytes is dropped. -/
def parse_values : List Nat → List Nat
  | a :: b :: c :: d :: rest => unpack32 a b c d :: parse_values rest
  | _ => []

theorem unpack16_pack16 (n : Nat) (h : n < 65536) :
    unpack16 (n / 256 % 256) (n % 256) = n := by
  simp only [unpack16]
  omega

theorem unpack32_pack32 (n : Nat) (h : n < 4294967296) :
    unpack32 (n / 16777216 % 256) (n / 65536 % 256) (n / 256 % 256) (n % 256) = n := by
  simp only [unpack32]
  omega

theorem pack_values_parse (vs : List Nat) (h : ∀ v ∈ vs, v < 4294967296) :
    ∃ payload, pack_values vs = some payload ∧
      payload.length = 4 * vs.length ∧ parse_values payload = vs := by
  induction vs with
  | nil => exact ⟨[], rfl, rfl, rfl⟩
  | cons v rest ih =>
    obtain ⟨payload, hp, hlen, hparse⟩ := ih (fun x hx => h x (List.mem_cons_of_mem _ hx))
    have hv : v < 4294967296 := h v (List.mem_cons_self _ _)
    refine ⟨pack32 v ++ payload, ?_, ?_, ?_⟩
    · simp only [pack_values, pack_u32, if_pos hv, hp]
    · simp [pack32, hlen]; ring
    · simp [pack32, parse_values, hparse, unpack32_pack32 v hv]

/-! ## Sensor side (src/sensor/sensor_base.py, src/sensor/sensor.py) -/

/-- Sensor fields touched by the embedded methods (TelemetrySensor). -/
structure SensorState where
  device_id : Nat
  seq : Nat
  batch_buffer : List Nat
  batch_size : Nat
deriving DecidableEq

/-- Constant MAX_PAYLOAD_BYTES = 200 - 10. -/
def MAX_PAYLOAD_BYTES : Nat := 200 - 10

/-- Constant MAX_READINGS_PER_BATCH = MAX_PAYLOAD_BYTES // 4. -/
def MAX_READINGS_PER_BATCH : Nat := MAX_PAYLOAD_BYTES / 4

/-- Embeds TelemetrySensor.build_packet: masks version and message type into
the first header byte, advances the sequence counter modulo 2^16, packs the
header and appends the payload. The timestamp is a parameter standing for
int(time.time()). -/
def TelemetrySensor.build_packet (st : SensorState) (msg_type : Nat)
    (payload : List Nat) (flags : Nat) (timestamp : Nat) :
    Option (List Nat × SensorState) :=
  let version := 1 % 16
  let mt := msg_type % 16
  let raw_byte := (version * 16 + mt) % 256
  let seq2 := (st.seq + 1) % 65536
  match pack_header raw_byte st.device_id seq2 timestamp flags with
  | some header => some (header ++ payload, { st with seq := seq2 })
  | none => none

/-- Embeds TelemetrySensor.check_payload_size: header size plus payload size
must not exceed 200 bytes. -/
def TelemetrySensor.check_payload_size (payload : List Nat) : Bool :=
  decide (10 + payload.length ≤ 200)

/-- Embeds TelemetrySensor.send_batch_packet: returns false when the buffer
has not reached batch_size; otherwise packs the readings, truncates the
batch to MAX_READINGS_PER_BATCH readings when the payload would overflow,
builds a DATA packet with the batched flag 0x01, sends it once, clears the
batch and returns true. Result: (new state, packets sent, return value). -/
def TelemetrySensor.send_batch_packet (st : SensorState) (timestamp : Nat) :
    Option (SensorState × List (List Nat) × Bool) :=
  if st.batch_buffer.length < st.batch_size then
    some (st, [], false)
  else
    match pack_values st.batch_buffer with
    | none => none
    | some payload =>
      let step :
          Option (List Nat × List Nat) :=
        if TelemetrySensor.check_payload_size payload then
          some (st.batch_buffer, payload)
        else
          match pack_values (st.batch_buffer.take MAX_READINGS_PER_BATCH) with
          | some payload2 => some (st.batch_buffer.take MAX_READINGS_PER_BATCH, payload2)
          | none => none
      match step with
      | none => none
      | some (buf2, payload2) =>
        match TelemetrySensor.build_packet { st with batch_buffer := buf2 } 1 payload2 1 timestamp with
        | some (pkt, st2) => some ({ st2 with batch_buffer := [] }, [pkt], true)
        | none => none

/-- Outcome of one blocking recvfrom with a 2-second socket timeout: either
a datagram arrives or socket.timeout is raised. -/
inductive RecvOutcome where
  | timeout
  | msg (data : List Nat)
deriving DecidableEq

/-- Leading bytes of the textual ACK frame, ASCII "ACK". -/
def ackBytes : List Nat := [65, 67, 75]

/-- Decimal digits accumulated left to right. -/
def decDigits : List Nat → Nat → Option Nat
  | [], acc => some acc
  | c :: rest, acc =>
    if 48 ≤ c ∧ c ≤ 57 then decDigits rest (acc * 10 + (c - 48)) else none

/-- Models Python int() on a byte string: strip spaces at both ends, then
require a nonempty run of decimal digits (ValueError becomes none). -/
def parse_int_bytes (data : List Nat) : Option Nat :=
  let trimmed := ((data.dropWhile (· == 32)).reverse.dropWhile (· == 32)).reverse
  if trimmed = [] then none else decDigits trimmed 0

/-- Embeds the while loop of TemperatureSensor.send_batch_packet: while
retries < MAX_RETRIES and no ACK, send the prebuilt packet, then consume one
receive outcome; a timeout increments retries, a datagram beginning with
"ACK" whose decimal tail equals the current sequence sets ack_received.
Returns (retries, ack_received, packets sent); none stands for an unmodelled
continuation (an uncaught ValueError, or a receive with no outcome left). -/
def TemperatureSensor.ack_loop (pkt : List Nat) (seq : Nat) :
    Nat → Bool → List RecvOutcome → List (List Nat) →
    Option (Nat × Bool × List (List Nat))
  | retries, ack, [], sent =>
    if retries < 3 ∧ ack = false then none else some (retries, ack, sent)
  | retries, ack, e :: rest, sent =>
    if retries < 3 ∧ ack = false then
      match e with
      | .timeout => TemperatureSensor.ack_loop pkt seq (retries + 1) ack rest (sent ++ [pkt])
      | .msg data =>
        if ackBytes.isPrefixOf data then
          match parse_int_bytes (data.drop 4) with
          | none => none
          | some n =>
            TemperatureSensor.ack_loop pkt seq retries (ack || decide (n = seq)) rest (sent ++ [pkt])
        else
          TemperatureSensor.ack_loop pkt seq retries ack rest (sent ++ [pkt])
    else
      some (retries, ack, sent)

/-- Constant HIGH_TEMP_THRESHOLD from src/sensor/sensor.py. -/
def HIGH_TEMP_THRESHOLD : Nat := 3500

/-- Embeds TemperatureSensor.send_batch_packet: below batch_size return
false; otherwise pack the payload, set flag 0x02 exactly when some reading
reaches HIGH_TEMP_THRESHOLD, build the packet once, and either run the ACK
retry loop (need_ack) or send exactly once; finally clear the batch and
return true. The events list supplies the outcome of each receive. -/
def TemperatureSensor.send_batch_packet (st : SensorState) (timestamp : Nat)
    (events : List RecvOutcome) :
    Option (SensorState × List (List Nat) × Bool) :=
  if st.batch_buffer.length < st.batch_size then
    some (st, [], false)
  else
    match pack_values st.batch_buffer with
    | none => none
    | some payload =>
      let flags := if st.batch_buffer.any (fun v => decide (HIGH_TEMP_THRESHOLD ≤ v)) then 2 else 0
      match TelemetrySensor.build_packet st 1 payload flags timestamp with
      | none => none
      | some (pkt, st2) =>
        let need_ack := st.batch_buffer.any (fun v => decide (HIGH_TEMP_THRESHOLD ≤ v))
        if need_ack then
          match TemperatureSensor.ack_loop pkt st2.seq 0 false events [] with
          | none => none
          | some (_, _, sent) => some ({ st2 with batch_buffer := [] }, sent, true)
        else
          some ({ st2 with batch_buffer := [] }, [pkt], true)

/-! ## Server side (src/server/server.py) -/

/-- Device liveness status kept in TelemetryServer.device_status. -/
inductive DeviceStatus where
  | ONLINE
  | OFFLINE
deriving DecidableEq

/-- One tuple of TelemetryServer.reorder_buffer:
(timestamp, device_id, seq, msg_type, payload, duplicate_flag, gap_flag,
flags, reading_count). -/
structure ReorderEntry where
  sentAt : Nat
  device_id : Nat
  seq : Nat
  msg_type : Nat
  payload : List Nat
  duplicate_flag : Nat
  gap_flag : Nat
  flags : Nat
  reading_count : Nat
deriving DecidableEq

/-- Value column of a telemetry_log.csv row: the parsed reading list for
DATA rows, the literal HEARTBEAT marker otherwise. -/
inductive LogValue where
  | readings (vs : List Nat)
  | heartbeat
deriving DecidableEq

/-- One row of telemetry_log.csv as written by flush_reordered. -/
structure LogRow where
  device_id : Nat
  seq : Nat
  msg_type : Nat
  timestamp_sent : Nat
  timestamp_arrival : Int
  duplicate_flag : Nat
  gap_flag : Nat
  flags : Nat
  value : LogValue
deriving DecidableEq

/-- One row of device_status.csv as written by handle_heartbeat. -/
structure StatusEvent where
  device_id : Nat
  timestamp : Int
  status : DeviceStatus
deriving DecidableEq

/-- Mutable per-device server state (TelemetryServer instance fields). -/
structure ServerState where
  last_seq : Nat → Option Nat
  duplicate_counts : Nat → Nat
  gap_counts : Nat → Nat
  reorder_buffer : Nat → List ReorderEntry
  device_heartbeats : Nat → List Rat
  device_status : Nat → Option DeviceStatus
  last_values : Nat → Option (List Nat)

/-- Pointwise update of a device-keyed map. -/
def updf {α : Type} (f : Nat → α) (k : Nat) (v : α) : Nat → α :=
  fun x => if x = k then v else f x

/-- Observable outputs of one handle_packet call: ACK sequence numbers sent
back, device_status.csv rows, telemetry_log.csv rows, and the number of
readings added to the metrics. -/
structure HandleOutput where
  acks : List Nat
  statusEvents : List StatusEvent
  rows : List LogRow
  readings : Nat
deriving DecidableEq

/-- Output of a handle_packet call that dropped the packet. -/
def emptyOut : HandleOutput := ⟨[], [], [], 0⟩

/-- Embeds TelemetryServer.detect_seq_state: first contact records the
sequence and zeroes both counters; then, in order, the duplicate test, the
in-order test modulo 2^16, the gap test on the 16-bit values, and the
out-of-order fallthrough that leaves all state unchanged. Returns
((duplicate_flag, gap_flag, gap_count_here), new state). -/
def detect_seq_state (st : ServerState) (device_id seq : Nat) :
    (Nat × Nat × Nat) × ServerState :=
  match st.last_seq device_id with
  | none =>
    ((0, 0, 0),
      { st with
        last_seq := updf st.last_seq device_id (some seq)
        duplicate_counts := updf st.duplicate_counts device_id 0
        gap_counts := updf st.gap_counts device_id 0 })
  | some last =>
    if seq = last then
      ((1, 0, 0),
        { st with
          duplicate_counts :=
            updf st.duplicate_counts device_id (st.duplicate_counts device_id + 1) })
    else if seq = (last + 1) % 65536 then
      ((0, 0, 0), { st with last_seq := updf st.last_seq device_id (some seq) })
    else if seq % 65536 > last % 65536 ∧ seq > last + 1 then
      ((0, 1, seq - last - 1),
        { st with
          gap_counts :=
            updf st.gap_counts device_id (st.gap_counts device_id + (seq - last - 1))
          last_seq := updf st.last_seq device_id (some seq) })
    else
      ((0, 0, 0), st)

/-- Consecutive gaps of a timestamp list, as zip(l[:-1], l[1:]) differences. -/
def intervals : List Rat → List Rat
  | t1 :: t2 :: rest => (t2 - t1) :: intervals (t2 :: rest)
  | _ => []

/-- The local last_times list of handle_heartbeat: the stored window with
the current arrival time appended, before trimming. -/
def hb_times (st : ServerState) (device_id : Nat) (now : Rat) : List Rat :=
  st.device_heartbeats device_id ++ [now]

/-- The avg_interval computation of handle_heartbeat on a timestamp list:
mean of consecutive gaps when at least 2 samples exist, else 1.0. -/
def hb_avg_interval (times : List Rat) : Rat :=
  if 2 ≤ times.length then
    (intervals times).sum / ((intervals times).length : Rat)
  else
    1

/-- The second-to-last element last_times[-2] (meaningful when the list has
at least 2 elements, as guarded in handle_heartbeat). -/
def hb_penult (l : List Rat) : Rat := l.getD (l.length - 2) 0

/-- The status handle_heartbeat assigns: OFFLINE exactly when the previous
status (defaulting to ONLINE) is ONLINE, at least 2 samples exist, and the
gap between the two newest timestamps exceeds twice avg_interval. -/
def hb_status (st : ServerState) (device_id : Nat) (now : Rat) : DeviceStatus :=
  if (st.device_status device_id).getD .ONLINE = .ONLINE ∧
      2 ≤ (hb_times st device_id now).length ∧
      now - hb_penult (hb_times st device_id now) >
        2 * hb_avg_interval (hb_times st device_id now) then
    .OFFLINE
  else
    .ONLINE

/-- Embeds TelemetryServer.handle_heartbeat: append the arrival time, store
the last 10 timestamps, classify the status, and append a device_status.csv
row exactly when the status changed or the device had no recorded status. -/
def handle_heartbeat (now : Rat) (st : ServerState) (device_id : Nat) :
    ServerState × List StatusEvent :=
  let last_times := hb_times st device_id now
  let stored := last_times.drop (last_times.length - 10)
  let prev := (st.device_status device_id).getD .ONLINE
  let status := hb_status st device_id now
  let st1 := { st with device_heartbeats := updf st.device_heartbeats device_id stored }
  if prev ≠ status ∨ st.device_status device_id = none then
    ({ st1 with device_status := updf st.device_status device_id (some status) },
      [⟨device_id, Rat.floor now, status⟩])
  else
    (st1, [])

/-- Sort order of the reorder buffer: the Python stable sort with key
lambda x: x[0], that is the sentAt timestamp. -/
def entry_le (a b : ReorderEntry) : Bool := decide (a.sentAt ≤ b.sentAt)

/-- The telemetry_log.csv row flush_reordered writes for one entry. -/
def mkRow (now : Rat) (e : ReorderEntry) : LogRow :=
  ⟨e.device_id, e.seq, e.msg_type, e.sentAt, Rat.floor now, e.duplicate_flag,
    e.gap_flag, e.flags,
    if e.msg_type = 1 then .readings (parse_values e.payload) else .heartbeat⟩

/-- Embeds TelemetryServer.flush_reordered: stable-sort the device's pending
entries by sentAt, write a log row for each non-duplicate entry in sorted
order, and clear the buffer. -/
def flush_reordered (now : Rat) (st : ServerState) (device_id : Nat) :
    ServerState × List LogRow :=
  let sorted := (st.reorder_buffer device_id).mergeSort entry_le
  let rows := (sorted.filter (fun e => e.duplicate_flag == 0)).map (mkRow now)
  ({ st with reorder_buffer := updf st.reorder_buffer device_id [] }, rows)

/-- Embeds the reorder-buffer insert of handle_packet (lines 157-164):
append the entry for this packet to the device's buffer and flush as soon
as the pending count reaches 5. -/
def insert_and_flush (now : Rat) (st : ServerState) (e : ReorderEntry) :
    ServerState × List LogRow :=
  let buf := st.reorder_buffer e.device_id ++ [e]
  let st1 := { st with reorder_buffer := updf st.reorder_buffer e.device_id buf }
  if buf.length ≥ 5 then flush_reordered now st1 e.device_id else (st1, [])

/-- Embeds the header handling of handle_packet (lines 91-104): drop
datagrams shorter than the 10-byte header, else split off
(version, msg_type, device_id, seq, timestamp, flags, payload). -/
def decode_header (data : List Nat) :
    Option (Nat × Nat × Nat × Nat × Nat × Nat × List Nat) :=
  match data with
  | b0 :: d1 :: d2 :: s1 :: s2 :: t1 :: t2 :: t3 :: t4 :: fl :: payload =>
    some (b0 / 16 % 16, b0 % 16, unpack16 d1 d2, unpack16 s1 s2,
      unpack32 t1 t2 t3 t4, fl, payload)
  | _ => none

/-- Embeds TelemetryServer.handle_packet: decode the header, classify the
sequence, drop duplicates, then dispatch on the message type — DATA parses
the readings, stores last_values and ACKs when flag 0x02 is set; HEARTBEAT
runs the liveness monitor; any other type is dropped after classification.
Accepted packets are appended to the reorder buffer, which flushes at 5. -/
def handle_packet (now : Rat) (st : ServerState) (data : List Nat) :
    ServerState × HandleOutput :=
  match decode_header data with
  | none => (st, emptyOut)
  | some (_, msg_type, device_id, seq, timestamp, flags, payload) =>
    let res := detect_seq_state st device_id seq
    let st1 := res.2
    let duplicate_flag := res.1.1
    let gap_flag := res.1.2.1
    if duplicate_flag = 1 then
      (st1, emptyOut)
    else if msg_type = 1 then
      let values := parse_values payload
      let st2 := { st1 with last_values := updf st1.last_values device_id (some values) }
      let acks := if flags &&& 2 ≠ 0 then [seq] else []
      let e : ReorderEntry :=
        ⟨timestamp, device_id, seq, msg_type, payload, duplicate_flag, gap_flag,
          flags, values.length⟩
      let res2 := insert_and_flush now st2 e
      (res2.1, ⟨acks, [], res2.2, values.length⟩)
    else if msg_type = 2 then
      let res2 := handle_heartbeat now st1 device_id
      let e : ReorderEntry :=
        ⟨timestamp, device_id, seq, msg_type, payload, duplicate_flag, gap_flag,
          flags, 0⟩
      let res3 := insert_and_flush now res2.1 e
      (res3.1, ⟨[], res2.2, res3.2, 0⟩)
    else
      (st1, emptyOut)

/-! ## Claim theorems -/

/-- Result of the spec's four-branch sequence classifier. -/
structure SeqClass where
  isDuplicate : Bool
  isGap : Bool
  gapSize : Nat
  newLast : Nat
deriving DecidableEq

/-- The four-branch reference classifier, following the spec's words: on
first observation record the sequence; then duplicate on equality, in-order
on successor modulo 65536, gap of size s - L - 1 when s is numerically
greater than L and greater than L + 1, and otherwise no change. -/
def spec_classify (last : Option Nat) (s : Nat) : SeqClass :=
  match last with
  | none => ⟨false, false, 0, s⟩
  | some L =>
    if s = L then ⟨true, false, 0, L⟩
    else if s = (L + 1) % 65536 then ⟨false, false, 0, s⟩
    else if L < s ∧ L + 1 < s then ⟨false, true, s - L - 1, s⟩
    else ⟨false, false, 0, L⟩

/-- Claim C1: the sequence classifier equals the spec's four-branch reference
definition. For every device with 16-bit recorded lastSeen and 16-bit
incoming sequence, detect_seq_state returns exactly the duplicate/gap flags
and gap size of spec_classify, stores its newLast, increments the duplicate
counter exactly on duplicates, accumulates the gap counter by the gap size,
zeroes both counters on first observation, and touches no other state. -/
theorem detect_seq_state_matches_spec (st : ServerState) (d s : Nat)
    (hs : s < 65536) (hl : ∀ L, st.last_seq d = some L → L < 65536) :
    (detect_seq_state st d s).1 =
      ((if (spec_classify (st.last_seq d) s).isDuplicate then 1 else 0),
        (if (spec_classify (st.last_seq d) s).isGap then 1 else 0),
        (spec_classify (st.last_seq d) s).gapSize)
    ∧ (detect_seq_state st d s).2.last_seq d =
        some (spec_classify (st.last_seq d) s).newLast
    ∧ (detect_seq_state st d s).2.duplicate_counts d =
        (if st.last_seq d = none then 0 else
          st.duplicate_counts d +
            (if (spec_classify (st.last_seq d) s).isDuplicate then 1 else 0))
    ∧ (detect_seq_state st d s).2.gap_counts d =
        (if st.last_seq d = none then 0 else
          st.gap_counts d + (spec_classify (st.last_seq d) s).gapSize)
    ∧ (∀ e, e ≠ d → (detect_seq_state st d s).2.last_seq e = st.last_seq e)
    ∧ (detect_seq_state st d s).2.reorder_buffer = st.reorder_buffer
    ∧ (detect_seq_state st d s).2.device_heartbeats = st.device_heartbeats
    ∧ (detect_seq_state st d s).2.device_status = st.device_status
    ∧ (detect_seq_state st d s).2.last_values = st.last_values := by
  cases h : st.last_seq d with
  | none =>
    simp only [detect_seq_state, spec_classify, h, updf]
    exact ⟨by simp, by simp, by simp, by simp, fun e hne => by simp [hne],
      by simp, by simp, by simp, by simp⟩
  | some L =>
    have hL : L < 65536 := hl L h
    simp only [detect_seq_state, spec_classify, h, Nat.mod_eq_of_lt hs,
      Nat.mod_eq_of_lt hL]
    split_ifs with h1 h2 h3 <;> simp_all [updf]

/-- Concrete state for the C1 witness: device 7 has lastSeen 10. -/
def c1_state : ServerState :=
  ⟨fun d => if d = 7 then some 10 else none, fun _ => 0, fun _ => 0,
    fun _ => [], fun _ => [], fun _ => none, fun _ => none⟩

/-- Witness for C1 at device 7, lastSeen 10, incoming sequence 15: the gap
branch fires with gap size 4 and lastSeen advances to 15. -/
theorem detect_seq_state_matches_spec_witness :
    (15 : Nat) < 65536 ∧
    ((detect_seq_state c1_state 7 15).1 =
      ((if (spec_classify (c1_state.last_seq 7) 15).isDuplicate then 1 else 0),
        (if (spec_classify (c1_state.last_seq 7) 15).isGap then 1 else 0),
        (spec_classify (c1_state.last_seq 7) 15).gapSize)
    ∧ (detect_seq_state c1_state 7 15).2.last_seq 7 =
        some (spec_classify (c1_state.last_seq 7) 15).newLast
    ∧ (detect_seq_state c1_state 7 15).2.duplicate_counts 7 =
        (if c1_state.last_seq 7 = none then 0 else
          c1_state.duplicate_counts 7 +
            (if (spec_classify (c1_state.last_seq 7) 15).isDuplicate then 1 else 0))
    ∧ (detect_seq_state c1_state 7 15).2.gap_counts 7 =
        (if c1_state.last_seq 7 = none then 0 else
          c1_state.gap_counts 7 + (spec_classify (c1_state.last_seq 7) 15).gapSize)
    ∧ (∀ e, e ≠ 7 → (detect_seq_state c1_state 7 15).2.last_seq e = c1_state.last_seq e)
    ∧ (detect_seq_state c1_state 7 15).2.reorder_buffer = c1_state.reorder_buffer
    ∧ (detect_seq_state c1_state 7 15).2.device_heartbeats = c1_state.device_heartbeats
    ∧ (detect_seq_state c1_state 7 15).2.device_status = c1_state.device_status
    ∧ (detect_seq_state c1_state 7 15).2.last_values = c1_state.last_values) :=
  ⟨by decide,
    detect_seq_state_matches_spec c1_state 7 15 (by decide)
      (by intro L h; simp [c1_state] at h; omega)⟩

/-- Claim C2: round-trip. For every reading list of 32-bit values whose encoded
payload fits one packet and every flags byte, building a DATA packet and
then decoding the header and parsing the payload on the server reproduces
the same reading list and the same flags byte. -/
theorem data_packet_roundtrip (st : SensorState) (readings : List Nat) (flags ts : Nat)
    (hv : ∀ v ∈ readings, v < 4294967296)
    (hfit : 4 * readings.length ≤ 190)
    (hdev : st.device_id < 65536) (hts : ts < 4294967296) (hfl : flags < 256) :
    ∃ payload pkt st2,
      pack_values readings = some payload ∧
      TelemetrySensor.build_packet st 1 payload flags ts = some (pkt, st2) ∧
      decode_header pkt =
        some (1, 1, st.device_id, (st.seq + 1) % 65536, ts, flags, payload) ∧
      parse_values payload = readings := by
  obtain ⟨payload, hp, hlen, hparse⟩ := pack_values_parse readings hv
  have hseq2 : (st.seq + 1) % 65536 < 65536 := Nat.mod_lt _ (by norm_num)
  have hbuild : TelemetrySensor.build_packet st 1 payload flags ts =
      some (([17] ++ pack16 st.device_id ++ pack16 ((st.seq + 1) % 65536) ++
          pack32 ts ++ [flags]) ++ payload,
        { st with seq := (st.seq + 1) % 65536 }) := by
    simp [TelemetrySensor.build_packet, pack_header, hdev, hts, hfl, hseq2]
  have hdec : decode_header (([17] ++ pack16 st.device_id ++
      pack16 ((st.seq + 1) % 65536) ++ pack32 ts ++ [flags]) ++ payload) =
      some (1, 1, st.device_id, (st.seq + 1) % 65536, ts, flags, payload) := by
    simp [decode_header, pack16, pack32, unpack16_pack16 _ hdev,
      unpack16_pack16 _ hseq2, unpack32_pack32 _ hts]
  exact ⟨payload, _, _, hp, hbuild, hdec, hparse⟩

/-- Concrete sensor for the sensor-side witnesses. -/
def w_sensor : SensorState := ⟨1001, 0, [], 3⟩

/-- Witness for C2 at readings [1500, 2200, 3600] and flags byte 2. -/
theorem data_packet_roundtrip_witness :
    (∀ v ∈ [1500, 2200, 3600], v < 4294967296) ∧
    4 * [1500, 2200, 3600].length ≤ 190 ∧
    (∃ payload pkt st2,
      pack_values [1500, 2200, 3600] = some payload ∧
      TelemetrySensor.build_packet w_sensor 1 payload 2 1700000000 = some (pkt, st2) ∧
      decode_header pkt =
        some (1, 1, w_sensor.device_id, (w_sensor.seq + 1) % 65536, 1700000000, 2, payload) ∧
      parse_values payload = [1500, 2200, 3600]) :=
  ⟨by decide, by decide,
    data_packet_roundtrip w_sensor [1500, 2200, 3600] 2 1700000000
      (by decide) (by decide) (by decide) (by decide) (by decide)⟩

theorem entry_le_trans (a b c : ReorderEntry) (hab : entry_le a b = true)
    (hbc : entry_le b c = true) : entry_le a c = true := by
  simp [entry_le] at *
  omega

theorem entry_le_total (a b : ReorderEntry) : (entry_le a b || entry_le b a) = true := by
  simp [entry_le]
  omega

/-- Stability of the buffer sort: filtering by any predicate that forces a
single sentAt key commutes with the stable sort. -/
theorem mergeSort_filter_eq_key (buf : List ReorderEntry) (q : ReorderEntry → Bool)
    (hq : ∀ a b, q a = true → q b = true → a.sentAt = b.sentAt) :
    (buf.mergeSort entry_le).filter q = buf.filter q := by
  have hperm : ((buf.mergeSort entry_le).filter q).Perm (buf.filter q) :=
    (List.mergeSort_perm buf entry_le).filter q
  have hpw : (buf.filter q).Pairwise (fun a b => entry_le a b = true) := by
    apply List.pairwise_of_forall_mem_list
    intro a ha b hb
    have ha2 := (List.mem_filter.mp ha).2
    have hb2 := (List.mem_filter.mp hb).2
    simp [entry_le, hq a b ha2 hb2]
  have hsub : (buf.filter q).Sublist (buf.mergeSort entry_le) :=
    List.sublist_mergeSort entry_le_trans entry_le_total hpw (List.filter_sublist buf)
  have hself : (buf.filter q).filter q = buf.filter q :=
    List.filter_eq_self.mpr (fun a ha => (List.mem_filter.mp ha).2)
  have hsub2 := hsub.filter q
  rw [hself] at hsub2
  exact (hsub2.eq_of_length hperm.length_eq.symm).symm

/-- Claim C3: reorder-buffer flush. When a device's pending count reaches 5 the
buffer is flushed: the device's buffer is empty afterwards and other
devices' buffers are untouched; the emitted log rows are sorted ascending
by sentAt; they are exactly the rows of the non-duplicate pending entries
(duplicates are never logged); and ties on sentAt keep arrival order: for
every timestamp t the rows with sentAt t list the non-duplicate entries
with sentAt t in their original buffer order. -/
theorem reorder_flush_on_fifth (now : Rat) (st : ServerState) (e : ReorderEntry)
    (h4 : (st.reorder_buffer e.device_id).length = 4) :
    (insert_and_flush now st e).1.reorder_buffer e.device_id = []
    ∧ (∀ d, d ≠ e.device_id →
        (insert_and_flush now st e).1.reorder_buffer d = st.reorder_buffer d)
    ∧ (insert_and_flush now st e).2.Pairwise
        (fun r1 r2 => r1.timestamp_sent ≤ r2.timestamp_sent)
    ∧ (insert_and_flush now st e).2.Perm
        (((st.reorder_buffer e.device_id ++ [e]).filter
            (fun x => x.duplicate_flag == 0)).map (mkRow now))
    ∧ (∀ t, (insert_and_flush now st e).2.filter (fun r => r.timestamp_sent == t) =
        ((st.reorder_buffer e.device_id ++ [e]).filter
            (fun x => x.duplicate_flag == 0 && x.sentAt == t)).map (mkRow now)) := by
  have hcond : (st.reorder_buffer e.device_id ++ [e]).length ≥ 5 := by
    simp [h4]
  have hrows : (insert_and_flush now st e).2 =
      (((st.reorder_buffer e.device_id ++ [e]).mergeSort entry_le).filter
          (fun x => x.duplicate_flag == 0)).map (mkRow now) := by
    simp only [insert_and_flush]
    rw [if_pos hcond]
    simp [flush_reordered, updf]
  have hbufd : (insert_and_flush now st e).1.reorder_buffer e.device_id = [] := by
    simp only [insert_and_flush]
    rw [if_pos hcond]
    simp [flush_reordered, updf]
  have hbufo : ∀ d, d ≠ e.device_id →
      (insert_and_flush now st e).1.reorder_buffer d = st.reorder_buffer d := by
    intro d hd
    simp only [insert_and_flush]
    rw [if_pos hcond]
    simp [flush_reordered, updf, hd]
  rw [hrows]
  refine ⟨hbufd, hbufo, ?_, ?_, ?_⟩
  · rw [List.pairwise_map]
    have hs := List.sorted_mergeSort entry_le_trans entry_le_total
      (st.reorder_buffer e.device_id ++ [e])
    have hf := hs.filter (fun x => x.duplicate_flag == 0)
    exact hf.imp (by intro a b h; simpa [entry_le, mkRow] using h)
  · exact ((List.mergeSort_perm _ entry_le).filter _).map (mkRow now)
  · intro t
    rw [List.filter_map]
    have hcomp : ((fun r : LogRow => r.timestamp_sent == t) ∘ mkRow now) =
        (fun x : ReorderEntry => x.sentAt == t) := by
      funext x
      simp [mkRow]
    rw [hcomp, List.filter_filter]
    have hcong : (List.filter (fun a : ReorderEntry => (a.sentAt == t) && (a.duplicate_flag == 0))
          ((st.reorder_buffer e.device_id ++ [e]).mergeSort entry_le)) =
        (List.filter (fun a : ReorderEntry => (a.duplicate_flag == 0) && (a.sentAt == t))
          ((st.reorder_buffer e.device_id ++ [e]).mergeSort entry_le)) := by
      apply List.filter_congr
      intro x _
      exact Bool.and_comm _ _
    rw [hcong, mergeSort_filter_eq_key]
    intro a b ha hb
    simp at ha hb
    rw [ha.2, hb.2]

/-- Concrete 4-entry buffer for the C3 witness: shuffled send times with a
tie (two entries at time 5) and one duplicate-flagged entry. -/
def c3_entry (ts seqn dup : Nat) : ReorderEntry := ⟨ts, 9, seqn, 2, [], dup, 0, 0, 0⟩

/-- Concrete server state for the C3 witness. -/
def c3_state : ServerState :=
  ⟨fun _ => none, fun _ => 0, fun _ => 0,
    fun d => if d = 9 then
        [c3_entry 7 1 0, c3_entry 5 2 0, c3_entry 6 3 1, c3_entry 5 4 0]
      else [],
    fun _ => [], fun _ => none, fun _ => none⟩

/-- Witness for C3: inserting a fifth entry (send time 1) into device 9's
4-entry buffer triggers the flush. -/
theorem reorder_flush_on_fifth_witness :
    (c3_state.reorder_buffer (c3_entry 1 5 0).device_id).length = 4 ∧
    ((insert_and_flush 0 c3_state (c3_entry 1 5 0)).1.reorder_buffer
        (c3_entry 1 5 0).device_id = []
    ∧ (∀ d, d ≠ (c3_entry 1 5 0).device_id →
        (insert_and_flush 0 c3_state (c3_entry 1 5 0)).1.reorder_buffer d =
          c3_state.reorder_buffer d)
    ∧ (insert_and_flush 0 c3_state (c3_entry 1 5 0)).2.Pairwise
        (fun r1 r2 => r1.timestamp_sent ≤ r2.timestamp_sent)
    ∧ (insert_and_flush 0 c3_state (c3_entry 1 5 0)).2.Perm
        (((c3_state.reorder_buffer (c3_entry 1 5 0).device_id ++ [c3_entry 1 5 0]).filter
            (fun x => x.duplicate_flag == 0)).map (mkRow 0))
    ∧ (∀ t, (insert_and_flush 0 c3_state (c3_entry 1 5 0)).2.filter
          (fun r => r.timestamp_sent == t) =
        ((c3_state.reorder_buffer (c3_entry 1 5 0).device_id ++ [c3_entry 1 5 0]).filter
            (fun x => x.duplicate_flag == 0 && x.sentAt == t)).map (mkRow 0))) :=
  ⟨by decide, reorder_flush_on_fifth 0 c3_state (c3_entry 1 5 0) (by decide)⟩

theorem intervals_length (l : List Rat) : (intervals l).length = l.length - 1 := by
  match l with
  | [] => rfl
  | [_] => rfl
  | t1 :: t2 :: rest =>
    have ih := intervals_length (t2 :: rest)
    simp only [intervals, List.length_cons] at ih ⊢
    omega

theorem intervals_sum_append (xs : List Rat) (z : Rat) :
    (intervals (xs ++ [z])).sum = z - (xs ++ [z]).headD 0 := by
  induction xs with
  | nil => simp [intervals]
  | cons x xs ih =>
    cases xs with
    | nil => simp [intervals]
    | cons y ys =>
      simp only [List.cons_append, intervals, List.sum_cons] at ih ⊢
      simp only [List.headD_cons] at ih ⊢
      simp only [List.append_eq] at ih ⊢
      rw [ih]
      ring

/-- The resulting stored status of a heartbeat is always the classified
status hb_status. -/
theorem handle_heartbeat_status_eq (now : Rat) (st : ServerState) (d : Nat) :
    (handle_heartbeat now st d).1.device_status d = some (hb_status st d now) := by
  simp only [handle_heartbeat]
  split
  · simp [updf]
  · rename_i h
    push_neg at h
    obtain ⟨h1, h2⟩ := h
    cases hsd : st.device_status d with
    | none => exact absurd hsd h2
    | some x =>
      have : x = hb_status st d now := by
        have := h1
        rw [hsd] at this
        simpa using this
      simp [hsd, this]

/-- The stored heartbeat window after a heartbeat is the appended list
trimmed to its last 10 entries. -/
theorem handle_heartbeat_window_eq (now : Rat) (st : ServerState) (d : Nat) :
    (handle_heartbeat now st d).1.device_heartbeats d =
      (hb_times st d now).drop ((hb_times st d now).length - 10) := by
  simp only [handle_heartbeat]
  split <;> simp [updf]

/-- The status events of a heartbeat: one row exactly when the previous
stored status differs from the classified status or no status was stored. -/
theorem handle_heartbeat_events_eq (now : Rat) (st : ServerState) (d : Nat) :
    (handle_heartbeat now st d).2 =
      if (st.device_status d).getD .ONLINE ≠ hb_status st d now ∨
          st.device_status d = none then
        [⟨d, Rat.floor now, hb_status st d now⟩]
      else [] := by
  simp only [handle_heartbeat]
  split
  · rfl
  · rfl

/-- Claim C4: heartbeat status rule. The stored status after a heartbeat is
OFFLINE exactly when the previous status (defaulting to ONLINE) was ONLINE,
at least 2 timestamps exist, and the gap between the newest and
second-newest timestamp exceeds twice avgInterval; otherwise it is ONLINE —
in particular a heartbeat after an OFFLINE classification restores ONLINE.
A status-change row (device id, timestamp, new status) is emitted exactly
when the stored status differs from the resulting one (which covers the
first classification); no row is emitted when it is unchanged. -/
theorem heartbeat_status_rule (now : Rat) (st : ServerState) (d : Nat) :
    ((handle_heartbeat now st d).1.device_status d = some .OFFLINE ↔
      ((st.device_status d).getD .ONLINE = .ONLINE ∧
        2 ≤ (hb_times st d now).length ∧
        now - hb_penult (hb_times st d now) >
          2 * hb_avg_interval (hb_times st d now)))
    ∧ ((handle_heartbeat now st d).1.device_status d = some .ONLINE ∨
        (handle_heartbeat now st d).1.device_status d = some .OFFLINE)
    ∧ ((st.device_status d).getD .ONLINE = .OFFLINE →
        (handle_heartbeat now st d).1.device_status d = some .ONLINE)
    ∧ ((handle_heartbeat now st d).2 =
        if st.device_status d = (handle_heartbeat now st d).1.device_status d then []
        else [⟨d, Rat.floor now,
          ((handle_heartbeat now st d).1.device_status d).getD .ONLINE⟩]) := by
  have key := handle_heartbeat_status_eq now st d
  have kev := handle_heartbeat_events_eq now st d
  refine ⟨?_, ?_, ?_, ?_⟩
  · rw [key]
    simp only [hb_status]
    split_ifs with h
    · simpa using h
    · simpa using h
  · rw [key]
    cases hb_status st d now
    · exact Or.inl rfl
    · exact Or.inr rfl
  · intro h
    rw [key]
    simp [hb_status, h]
  · rw [kev, key]
    cases hsd : st.device_status d with
    | none => simp
    | some x =>
      by_cases hx : x = hb_status st d now
      · simp [hx]
      · simp [hx, Ne.symm hx]

/-- Concrete server state for the C4 witness: device 3 is OFFLINE with two
recorded heartbeats; the next heartbeat restores ONLINE with an event row. -/
def c4_state : ServerState :=
  ⟨fun _ => none, fun _ => 0, fun _ => 0, fun _ => [],
    fun d => if d = 3 then [0, 1] else [],
    fun d => if d = 3 then some .OFFLINE else none, fun _ => none⟩

/-- Witness for C4 at device 3 and arrival time 10. -/
theorem heartbeat_status_rule_witness :
    ((handle_heartbeat 10 c4_state 3).1.device_status 3 = some .OFFLINE ↔
      ((c4_state.device_status 3).getD .ONLINE = .ONLINE ∧
        2 ≤ (hb_times c4_state 3 10).length ∧
        10 - hb_penult (hb_times c4_state 3 10) >
          2 * hb_avg_interval (hb_times c4_state 3 10)))
    ∧ ((handle_heartbeat 10 c4_state 3).1.device_status 3 = some .ONLINE ∨
        (handle_heartbeat 10 c4_state 3).1.device_status 3 = some .OFFLINE)
    ∧ ((c4_state.device_status 3).getD .ONLINE = .OFFLINE →
        (handle_heartbeat 10 c4_state 3).1.device_status 3 = some .ONLINE)
    ∧ ((handle_heartbeat 10 c4_state 3).2 =
        if c4_state.device_status 3 = (handle_heartbeat 10 c4_state 3).1.device_status 3 then []
        else [⟨3, Rat.floor 10,
          ((handle_heartbeat 10 c4_state 3).1.device_status 3).getD .ONLINE⟩]) :=
  heartbeat_status_rule 10 c4_state 3

/-- The spec's stated average, written from its words for comparison with
the code: the mean of the consecutive gaps within the retained window (the
stored, trimmed list of at most 10 timestamps), defaulting to 1.0 with
fewer than 2 samples. -/
def spec_retained_avg (retained : List Rat) : Rat :=
  if 2 ≤ retained.length then
    (intervals retained).sum / ((intervals retained).length : Rat)
  else 1

/-- Concrete server state refuting C5: device 0 already holds a full window
of 10 timestamps [0, 9, 9, 9, 9, 9, 9, 9, 9, 9] and is ONLINE. -/
def c5_state : ServerState :=
  ⟨fun _ => none, fun _ => 0, fun _ => 0, fun _ => [],
    fun d => if d = 0 then [0, 9, 9, 9, 9, 9, 9, 9, 9, 9] else [],
    fun d => if d = 0 then some .ONLINE else none, fun _ => none⟩

/-- Counterexample to C5: on the heartbeat at time 11, the code averages
the gaps of the 11-element pre-trim list (avg 11/10), not of the retained
10-element window (avg 2/9); observably, the gap 2 between the two newest
timestamps exceeds twice the retained-window average, so the claimed rule
would flip device 0 to OFFLINE, yet the code keeps it ONLINE. -/
theorem heartbeat_avg_counterexample :
    hb_avg_interval (hb_times c5_state 0 11) = 11 / 10
    ∧ (handle_heartbeat 11 c5_state 0).1.device_heartbeats 0 =
        [9, 9, 9, 9, 9, 9, 9, 9, 9, 11]
    ∧ spec_retained_avg ((handle_heartbeat 11 c5_state 0).1.device_heartbeats 0) = 2 / 9
    ∧ (11 / 10 : Rat) ≠ 2 / 9
    ∧ 11 - hb_penult (hb_times c5_state 0 11) >
        2 * spec_retained_avg [9, 9, 9, 9, 9, 9, 9, 9, 9, 11]
    ∧ (handle_heartbeat 11 c5_state 0).1.device_status 0 = some .ONLINE := by
  have hA : hb_times c5_state 0 11 = [0, 9, 9, 9, 9, 9, 9, 9, 9, 9, 11] := rfl
  have h1 : hb_avg_interval (hb_times c5_state 0 11) = 11 / 10 := by
    rw [hA]
    norm_num [hb_avg_interval, intervals]
  have hw : (handle_heartbeat 11 c5_state 0).1.device_heartbeats 0 =
      [9, 9, 9, 9, 9, 9, 9, 9, 9, 11] := by
    rw [handle_heartbeat_window_eq, hA]
    rfl
  have h3 : spec_retained_avg ([9, 9, 9, 9, 9, 9, 9, 9, 9, 11] : List Rat) = 2 / 9 := by
    norm_num [spec_retained_avg, intervals]
  have hp : hb_penult (hb_times c5_state 0 11) = 9 := rfl
  have h6 : (handle_heartbeat 11 c5_state 0).1.device_status 0 = some .ONLINE := by
    rw [handle_heartbeat_status_eq]
    simp only [hb_status, h1, hp]
    rw [hA]
    norm_num [c5_state]
  exact ⟨h1, hw, by rw [hw]; exact h3, by norm_num, by rw [hp, h3]; norm_num, h6⟩

/-- Claim C5 (amended): on each heartbeat the stored window is the last 10
entries of the appended list and so retains at most 10 timestamps, but
avgInterval is the mean of the consecutive gaps of the pre-trim appended
list — the previously retained window (up to 10 timestamps) plus the new
arrival, hence up to 11 timestamps — not of the retained window: with at
least 2 samples it satisfies avg · (n - 1) = now − (first appended-list
timestamp), and it defaults to 1.0 with fewer than 2 samples. -/
theorem heartbeat_window_spec (now : Rat) (st : ServerState) (d : Nat) :
    (handle_heartbeat now st d).1.device_heartbeats d =
      (hb_times st d now).drop ((hb_times st d now).length - 10)
    ∧ ((handle_heartbeat now st d).1.device_heartbeats d).length ≤ 10
    ∧ (2 ≤ (hb_times st d now).length →
        hb_avg_interval (hb_times st d now) *
            (((hb_times st d now).length - 1 : Nat) : Rat) =
          now - (hb_times st d now).headD 0)
    ∧ ((hb_times st d now).length < 2 → hb_avg_interval (hb_times st d now) = 1) := by
  have hstore : (handle_heartbeat now st d).1.device_heartbeats d =
      (hb_times st d now).drop ((hb_times st d now).length - 10) := by
    simp only [handle_heartbeat]
    split
    · simp [updf]
    · simp [updf]
  refine ⟨hstore, ?_, ?_, ?_⟩
  · rw [hstore, List.length_drop]
    omega
  · intro h2
    have hlen := intervals_length (hb_times st d now)
    rw [hb_avg_interval, if_pos h2, hlen]
    have hne : (((hb_times st d now).length - 1 : Nat) : Rat) ≠ 0 :=
      Nat.cast_ne_zero.mpr (by omega)
    rw [div_mul_cancel₀ _ hne]
    simpa [hb_times] using intervals_sum_append (st.device_heartbeats d) now
  · intro h2
    rw [hb_avg_interval, if_neg (by omega)]

/-- Witness for C5 (amended) at device 0 of the counterexample state: the
appended list has 11 entries, the stored window 10, and the code's average
satisfies the appended-list mean identity. -/
theorem heartbeat_window_spec_witness :
    ((handle_heartbeat 11 c5_state 0).1.device_heartbeats 0 =
      (hb_times c5_state 0 11).drop ((hb_times c5_state 0 11).length - 10)
    ∧ ((handle_heartbeat 11 c5_state 0).1.device_heartbeats 0).length ≤ 10
    ∧ (2 ≤ (hb_times c5_state 0 11).length →
        hb_avg_interval (hb_times c5_state 0 11) *
            (((hb_times c5_state 0 11).length - 1 : Nat) : Rat) =
          11 - (hb_times c5_state 0 11).headD 0)
    ∧ ((hb_times c5_state 0 11).length < 2 →
        hb_avg_interval (hb_times c5_state 0 11) = 1)) :=
  heartbeat_window_spec 11 c5_state 0

/-- Successful build_packet in explicit form: with in-range device id,
timestamp and flags byte the packet is the packed header followed by the
payload, and the state change is exactly the sequence increment mod 2^16. -/
theorem build_packet_eq (st : SensorState) (mt : Nat) (payload : List Nat)
    (flags ts : Nat) (hdev : st.device_id < 65536) (hts : ts < 4294967296)
    (hfl : flags < 256) :
    TelemetrySensor.build_packet st mt payload flags ts =
      some (([(1 % 16 * 16 + mt % 16) % 256] ++ pack16 st.device_id ++
          pack16 ((st.seq + 1) % 65536) ++ pack32 ts ++ [flags]) ++ payload,
        { st with seq := (st.seq + 1) % 65536 }) := by
  have hseq2 : (st.seq + 1) % 65536 < 65536 := Nat.mod_lt _ (by norm_num)
  have hraw : (1 % 16 * 16 + mt % 16) % 256 < 256 := Nat.mod_lt _ (by norm_num)
  simp [TelemetrySensor.build_packet, pack_header, hdev, hts, hfl, hseq2, hraw]

theorem ack_loop_stopped (pkt : List Nat) (s : Nat) (ack : Bool)
    (events : List RecvOutcome) (sent : List (List Nat)) :
    TemperatureSensor.ack_loop pkt s 3 ack events sent = some (3, ack, sent) := by
  cases events <;> simp [TemperatureSensor.ack_loop]

theorem ack_loop_three_timeouts (pkt : List Nat) (s : Nat) (extra : List RecvOutcome) :
    TemperatureSensor.ack_loop pkt s 0 false
        ([.timeout, .timeout, .timeout] ++ extra) [] =
      some (3, false, [pkt, pkt, pkt]) := by
  simp [TemperatureSensor.ack_loop, ack_loop_stopped]

/-- Claim C6: retry bound and soft exhaustion. For a full batch that needs an ACK
(some reading at or above the threshold), when every receive times out the
controller performs exactly 3 send attempts of the byte-identical packet —
the packet is built once, with one sequence increment, and never re-encoded
— then stops retrying (further receive outcomes are ignored), reports the
batch as sent (returns true), and clears the batch; the run returns a value
rather than raising. -/
theorem temp_retry_exhaustion (st : SensorState) (ts : Nat) (extra : List RecvOutcome)
    (hfull : ¬ st.batch_buffer.length < st.batch_size)
    (hv : ∀ v ∈ st.batch_buffer, v < 4294967296)
    (hack : st.batch_buffer.any (fun v => decide (HIGH_TEMP_THRESHOLD ≤ v)) = true)
    (hdev : st.device_id < 65536) (hts : ts < 4294967296) :
    ∃ payload pkt st2,
      pack_values st.batch_buffer = some payload ∧
      TelemetrySensor.build_packet st 1 payload 2 ts = some (pkt, st2) ∧
      TemperatureSensor.ack_loop pkt st2.seq 0 false
          ([.timeout, .timeout, .timeout] ++ extra) [] =
        some (3, false, [pkt, pkt, pkt]) ∧
      TemperatureSensor.send_batch_packet st ts ([.timeout, .timeout, .timeout] ++ extra) =
        some ({ st2 with batch_buffer := [] }, [pkt, pkt, pkt], true) := by
  obtain ⟨payload, hp, hlen, hparse⟩ := pack_values_parse _ hv
  have hb := build_packet_eq st 1 payload 2 ts hdev hts (by norm_num)
  refine ⟨payload, _, _, hp, hb, ack_loop_three_timeouts _ _ extra, ?_⟩
  simp only [TemperatureSensor.send_batch_packet, if_neg hfull, hp, hack, if_true,
    hb, ack_loop_three_timeouts]

/-- Claim C7: ACK decision. For a full batch, the flags byte of the built packet
is 0x02 exactly when some reading reaches HIGH_TEMP_THRESHOLD, so the
ack-requested bit (value 2) is set iff needsAck; and a batch with all
readings below the threshold is sent exactly once, with the flag byte 0 and
no receive consulted (the result is the same for every events list). -/
theorem temp_ack_flag (st : SensorState) (ts : Nat) (events : List RecvOutcome)
    (hfull : ¬ st.batch_buffer.length < st.batch_size)
    (hv : ∀ v ∈ st.batch_buffer, v < 4294967296)
    (hdev : st.device_id < 65536) (hts : ts < 4294967296) :
    ∃ payload pkt st2,
      pack_values st.batch_buffer = some payload ∧
      TelemetrySensor.build_packet st 1 payload
          (if st.batch_buffer.any (fun v => decide (HIGH_TEMP_THRESHOLD ≤ v)) then 2 else 0)
          ts = some (pkt, st2) ∧
      pkt.getD 9 0 =
        (if st.batch_buffer.any (fun v => decide (HIGH_TEMP_THRESHOLD ≤ v)) then 2 else 0) ∧
      (pkt.getD 9 0 &&& 2 ≠ 0 ↔ ∃ v ∈ st.batch_buffer, HIGH_TEMP_THRESHOLD ≤ v) ∧
      ((∀ v ∈ st.batch_buffer, v < HIGH_TEMP_THRESHOLD) →
        TemperatureSensor.send_batch_packet st ts events =
          some ({ st2 with batch_buffer := [] }, [pkt], true)) := by
  obtain ⟨payload, hp, hlen, hparse⟩ := pack_values_parse _ hv
  have hb := build_packet_eq st 1 payload
    (if st.batch_buffer.any (fun v => decide (HIGH_TEMP_THRESHOLD ≤ v)) then 2 else 0)
    ts hdev hts (by split <;> norm_num)
  refine ⟨payload, _, _, hp, hb, ?_, ?_, ?_⟩
  · simp [pack16, pack32]
  · by_cases hany : st.batch_buffer.any (fun v => decide (HIGH_TEMP_THRESHOLD ≤ v)) = true
    · simp [pack16, pack32, hany]
      simpa using List.any_eq_true.mp hany
    · simp [pack16, pack32, hany]
      intro v hvmem
      have := List.any_eq_false.mp (Bool.eq_false_iff.mpr hany) v hvmem
      simpa using this
  · intro hbelow
    have hany : st.batch_buffer.any (fun v => decide (HIGH_TEMP_THRESHOLD ≤ v)) = false := by
      apply List.any_eq_false.mpr
      intro v hvmem
      simpa using Nat.not_le.mpr (hbelow v hvmem)
    rw [hany] at hb
    simp only [Bool.false_eq_true, if_false] at hb
    simp only [TemperatureSensor.send_batch_packet, if_neg hfull, hp, hany, hb,
      Bool.false_eq_true, if_false]

/-- Witness for C6: device 1001, hot batch [3600, 1500, 2000] (3600 ≥ 3500),
batch size 3, three straight timeouts and no further events. -/
theorem temp_retry_exhaustion_witness :
    (¬ (⟨1001, 0, [3600, 1500, 2000], 3⟩ : SensorState).batch_buffer.length <
        (⟨1001, 0, [3600, 1500, 2000], 3⟩ : SensorState).batch_size) ∧
    (∃ payload pkt st2,
      pack_values (⟨1001, 0, [3600, 1500, 2000], 3⟩ : SensorState).batch_buffer = some payload ∧
      TelemetrySensor.build_packet ⟨1001, 0, [3600, 1500, 2000], 3⟩ 1 payload 2 77 =
        some (pkt, st2) ∧
      TemperatureSensor.ack_loop pkt st2.seq 0 false
          ([.timeout, .timeout, .timeout] ++ []) [] =
        some (3, false, [pkt, pkt, pkt]) ∧
      TemperatureSensor.send_batch_packet ⟨1001, 0, [3600, 1500, 2000], 3⟩ 77
          ([.timeout, .timeout, .timeout] ++ []) =
        some ({ st2 with batch_buffer := [] }, [pkt, pkt, pkt], true)) :=
  ⟨by decide,
    temp_retry_exhaustion ⟨1001, 0, [3600, 1500, 2000], 3⟩ 77 [] (by decide)
      (by decide) (by decide) (by decide) (by decide)⟩

/-- Witness for C7: device 1001, cold batch [1500, 2200, 3400] (all below 3500),
batch size 3, with a pending timeout event that is never consulted. -/
theorem temp_ack_flag_witness :
    (¬ (⟨1001, 0, [1500, 2200, 3400], 3⟩ : SensorState).batch_buffer.length <
        (⟨1001, 0, [1500, 2200, 3400], 3⟩ : SensorState).batch_size) ∧
    (∃ payload pkt st2,
      pack_values (⟨1001, 0, [1500, 2200, 3400], 3⟩ : SensorState).batch_buffer = some payload ∧
      TelemetrySensor.build_packet ⟨1001, 0, [1500, 2200, 3400], 3⟩ 1 payload
          (if (⟨1001, 0, [1500, 2200, 3400], 3⟩ : SensorState).batch_buffer.any
              (fun v => decide (HIGH_TEMP_THRESHOLD ≤ v)) then 2 else 0) 77 =
        some (pkt, st2) ∧
      pkt.getD 9 0 =
        (if (⟨1001, 0, [1500, 2200, 3400], 3⟩ : SensorState).batch_buffer.any
            (fun v => decide (HIGH_TEMP_THRESHOLD ≤ v)) then 2 else 0) ∧
      (pkt.getD 9 0 &&& 2 ≠ 0 ↔
        ∃ v ∈ (⟨1001, 0, [1500, 2200, 3400], 3⟩ : SensorState).batch_buffer,
          HIGH_TEMP_THRESHOLD ≤ v) ∧
      ((∀ v ∈ (⟨1001, 0, [1500, 2200, 3400], 3⟩ : SensorState).batch_buffer,
          v < HIGH_TEMP_THRESHOLD) →
        TemperatureSensor.send_batch_packet ⟨1001, 0, [1500, 2200, 3400], 3⟩ 77
            [.timeout] =
          some ({ st2 with batch_buffer := [] }, [pkt], true))) :=
  ⟨by decide,
    temp_ack_flag ⟨1001, 0, [1500, 2200, 3400], 3⟩ 77 [.timeout] (by decide)
      (by decide) (by decide) (by decide)⟩

/-- Claim C8: packet-size invariant. For every full batch (with 32-bit readings
and in-range header fields) the base-class send encodes exactly one packet
whose size is 10 + 4·min(batch, 47) bytes, hence at most 200; the encoded
readings are the first min(batch, 47) = at-most-47 readings of the batch
(a 50-reading batch is truncated to 47 readings, 188 payload bytes), and
the batch is cleared. -/
theorem base_send_size (st : SensorState) (ts : Nat)
    (hfull : ¬ st.batch_buffer.length < st.batch_size)
    (hv : ∀ v ∈ st.batch_buffer, v < 4294967296)
    (hdev : st.device_id < 65536) (hts : ts < 4294967296) :
    ∃ pkt st2,
      TelemetrySensor.send_batch_packet st ts = some (st2, [pkt], true) ∧
      pkt.length = 10 + 4 * min st.batch_buffer.length MAX_READINGS_PER_BATCH ∧
      pkt.length ≤ 200 ∧
      parse_values (pkt.drop 10) = st.batch_buffer.take MAX_READINGS_PER_BATCH ∧
      st2.batch_buffer = [] := by
  obtain ⟨payload, hp, hlen, hparse⟩ := pack_values_parse _ hv
  have h47 : MAX_READINGS_PER_BATCH = 47 := by decide
  by_cases hfit : TelemetrySensor.check_payload_size payload = true
  · have hlen47 : st.batch_buffer.length ≤ 47 := by
      simp [TelemetrySensor.check_payload_size] at hfit
      omega
    have hb := build_packet_eq st 1 payload 1 ts hdev hts (by norm_num)
    have hstep : TelemetrySensor.send_batch_packet st ts =
        match TelemetrySensor.build_packet st 1 payload 1 ts with
        | some (pkt, st2) => some ({ st2 with batch_buffer := [] }, [pkt], true)
        | none => none := by
      simp only [TelemetrySensor.send_batch_packet, if_neg hfull, hp, hfit, if_true]
    rw [hb] at hstep
    refine ⟨_, _, hstep, ?_, ?_, ?_, rfl⟩
    · simp [pack16, pack32, hlen, h47]
      omega
    · simp [pack16, pack32, hlen]
      omega
    · rw [h47]
      have hdrop : (([(1 % 16 * 16 + 1 % 16) % 256] ++ pack16 st.device_id ++
          pack16 ((st.seq + 1) % 65536) ++ pack32 ts ++ [1]) ++ payload).drop 10 = payload := by
        simp [pack16, pack32]
      rw [hdrop, hparse]
      exact (List.take_of_length_le hlen47).symm
  · have hv2 : ∀ v ∈ st.batch_buffer.take MAX_READINGS_PER_BATCH, v < 4294967296 :=
      fun v hv2 => hv v (List.take_subset _ _ hv2)
    obtain ⟨p2, hp2, hlen2, hparse2⟩ := pack_values_parse _ hv2
    have hlen48 : 48 ≤ st.batch_buffer.length := by
      simp [TelemetrySensor.check_payload_size] at hfit
      omega
    have hb := build_packet_eq { st with batch_buffer := st.batch_buffer.take MAX_READINGS_PER_BATCH }
      1 p2 1 ts hdev hts (by norm_num)
    have hstep : TelemetrySensor.send_batch_packet st ts =
        match TelemetrySensor.build_packet
            { st with batch_buffer := st.batch_buffer.take MAX_READINGS_PER_BATCH } 1 p2 1 ts with
        | some (pkt, st2) => some ({ st2 with batch_buffer := [] }, [pkt], true)
        | none => none := by
      simp only [TelemetrySensor.send_batch_packet, if_neg hfull, hp, hfit,
        Bool.false_eq_true, if_false, hp2]
    rw [hb] at hstep
    refine ⟨_, _, hstep, ?_, ?_, ?_, rfl⟩
    · simp [pack16, pack32, hlen2, h47]
      omega
    · simp [pack16, pack32, hlen2, h47]
      omega
    · have hdrop : (([(1 % 16 * 16 + 1 % 16) % 256] ++ pack16 st.device_id ++
          pack16 ((st.seq + 1) % 65536) ++ pack32 ts ++ [1]) ++ p2).drop 10 = p2 := by
        simp [pack16, pack32]
      rw [hdrop, hparse2]

/-- Witness for C8: a 50-reading batch (all value 7) is sent as one 198-byte
packet carrying the first 47 readings. -/
theorem base_send_size_witness :
    (¬ (List.replicate 50 7).length < 50) ∧
    (∃ pkt st2,
      TelemetrySensor.send_batch_packet ⟨1001, 0, List.replicate 50 7, 50⟩ 77 =
        some (st2, [pkt], true) ∧
      pkt.length = 10 + 4 * min (List.replicate 50 (7 : Nat)).length MAX_READINGS_PER_BATCH ∧
      pkt.length ≤ 200 ∧
      parse_values (pkt.drop 10) = (List.replicate 50 (7 : Nat)).take MAX_READINGS_PER_BATCH ∧
      st2.batch_buffer = []) :=
  ⟨by decide,
    base_send_size ⟨1001, 0, List.replicate 50 7, 50⟩ 77 (by decide) (by decide)
      (by decide) (by decide)⟩

/-- Counterexample for C9: encoding is not side-effect free — building a packet
from the sensor ⟨1001, 0, [], 3⟩ yields the successor state with sequence
counter 1, not the unchanged counter 0 the claim asserts; the header also
carries the internally generated sequence 1, not a caller-supplied one. -/
theorem build_packet_purity_counterexample :
    TelemetrySensor.build_packet ⟨1001, 0, [], 3⟩ 1 [] 0 0 =
      some ([17, 3, 233, 0, 1, 0, 0, 0, 0, 0], ⟨1001, 1, [], 3⟩) ∧
    ((⟨1001, 1, [], 3⟩ : SensorState).seq ≠ (⟨1001, 0, [], 3⟩ : SensorState).seq) := by
  exact ⟨by decide, by decide⟩

/-- Claim C9 (amended): the encoder is deterministic but stateful — build_packet
mutates exactly the sensor's sequence counter, advancing it to
(seq + 1) mod 65536, which is also the sequence written into header bytes
3-4; device id, batch buffer and batch size are unchanged, so encoding
twice from the same inputs yields consecutive sequence numbers, not equal
states. -/
theorem build_packet_state_change (st : SensorState) (mt : Nat) (payload : List Nat)
    (flags ts : Nat) (hdev : st.device_id < 65536) (hts : ts < 4294967296)
    (hfl : flags < 256) :
    ∃ pkt, TelemetrySensor.build_packet st mt payload flags ts =
        some (pkt, { st with seq := (st.seq + 1) % 65536 }) ∧
      (pkt.drop 3).take 2 = pack16 ((st.seq + 1) % 65536) := by
  refine ⟨_, build_packet_eq st mt payload flags ts hdev hts hfl, ?_⟩
  simp [pack16, pack32]

/-- Witness for the amended C9 at the sensor ⟨1001, 0, [], 3⟩. -/
theorem build_packet_state_change_witness :
    ((⟨1001, 0, [], 3⟩ : SensorState).device_id < 65536) ∧
    (∃ pkt, TelemetrySensor.build_packet ⟨1001, 0, [], 3⟩ 1 [] 0 0 =
        some (pkt, { (⟨1001, 0, [], 3⟩ : SensorState) with seq := ((⟨1001, 0, [], 3⟩ : SensorState).seq + 1) % 65536 }) ∧
      (pkt.drop 3).take 2 = pack16 (((⟨1001, 0, [], 3⟩ : SensorState).seq + 1) % 65536)) :=
  ⟨by decide, build_packet_state_change ⟨1001, 0, [], 3⟩ 1 [] 0 0 (by decide)
    (by decide) (by decide)⟩

/-- The sequence classifier touches only the sequence-tracking maps. -/
theorem detect_seq_state_frame (st : ServerState) (d s : Nat) :
    (detect_seq_state st d s).2.reorder_buffer = st.reorder_buffer
    ∧ (detect_seq_state st d s).2.last_values = st.last_values
    ∧ (detect_seq_state st d s).2.device_heartbeats = st.device_heartbeats
    ∧ (detect_seq_state st d s).2.device_status = st.device_status := by
  unfold detect_seq_state
  cases st.last_seq d <;> simp <;> split_ifs <;> simp

/-- Claim C10: for a datagram with a valid 10-byte header whose message type is
neither 1 nor 2, handle_packet still runs the sequence classifier before
the type check — the resulting state is exactly the classifier's state, so
lastSeen and the duplicate/gap counters may change — while the packet
produces no reorder-buffer insert, no last-values update, no ACK, no log
or status row, and no readings. -/
theorem handle_packet_unknown_type (now : Rat) (st : ServerState)
    (b0 d1 d2 s1 s2 t1 t2 t3 t4 fl : Nat) (payload : List Nat)
    (h1 : b0 % 16 ≠ 1) (h2 : b0 % 16 ≠ 2) :
    handle_packet now st
        (b0 :: d1 :: d2 :: s1 :: s2 :: t1 :: t2 :: t3 :: t4 :: fl :: payload) =
      ((detect_seq_state st (unpack16 d1 d2) (unpack16 s1 s2)).2, emptyOut)
    ∧ (detect_seq_state st (unpack16 d1 d2) (unpack16 s1 s2)).2.reorder_buffer =
        st.reorder_buffer
    ∧ (detect_seq_state st (unpack16 d1 d2) (unpack16 s1 s2)).2.last_values =
        st.last_values
    ∧ (detect_seq_state st (unpack16 d1 d2) (unpack16 s1 s2)).2.device_heartbeats =
        st.device_heartbeats
    ∧ (detect_seq_state st (unpack16 d1 d2) (unpack16 s1 s2)).2.device_status =
        st.device_status := by
  have hframe := detect_seq_state_frame st (unpack16 d1 d2) (unpack16 s1 s2)
  refine ⟨?_, hframe.1, hframe.2.1, hframe.2.2.1, hframe.2.2.2⟩
  by_cases hdup : (detect_seq_state st (unpack16 d1 d2) (unpack16 s1 s2)).1.1 = 1 <;>
    simp [handle_packet, decode_header, hdup, h1, h2]

/-- Concrete state for the C10 witness: device 258 has lastSeen 5. -/
def c10_state : ServerState :=
  ⟨fun d => if d = 258 then some 5 else none, fun _ => 0, fun _ => 0,
    fun _ => [], fun _ => [], fun _ => none, fun _ => none⟩

/-- Witness for C10: a type-3 packet (header byte 0x13) for device 258 with
sequence 9 is dropped, yet the classifier state (lastSeen advanced from 5
to 9 by the gap branch) is kept. -/
theorem handle_packet_unknown_type_witness :
    (19 % 16 ≠ 1) ∧ (19 % 16 ≠ 2) ∧
    (handle_packet 0 c10_state (19 :: 1 :: 2 :: 0 :: 9 :: 0 :: 0 :: 0 :: 0 :: 0 :: []) =
      ((detect_seq_state c10_state (unpack16 1 2) (unpack16 0 9)).2, emptyOut)
    ∧ (detect_seq_state c10_state (unpack16 1 2) (unpack16 0 9)).2.reorder_buffer =
        c10_state.reorder_buffer
    ∧ (detect_seq_state c10_state (unpack16 1 2) (unpack16 0 9)).2.last_values =
        c10_state.last_values
    ∧ (detect_seq_state c10_state (unpack16 1 2) (unpack16 0 9)).2.device_heartbeats =
        c10_state.device_heartbeats
    ∧ (detect_seq_state c10_state (unpack16 1 2) (unpack16 0 9)).2.device_status =
        c10_state.device_status) :=
  ⟨by decide, by decide,
    handle_packet_unknown_type 0 c10_state 19 1 2 0 9 0 0 0 0 0 [] (by decide) (by decide)⟩

end Telemetry
